import Mathlib

/-!
Shallow embedding of the core of the `captain` repository (src/llm/mod.rs,
src/screenshot.rs, src/search.rs, src/image_analysis.rs, src/trajectory.rs)
and proofs about the claims on the context/trajectory engine.

Modelling conventions:
* `f32` values are modelled as exact rationals `ℚ`, except that the result of
  a division by zero is modelled by a dedicated `FloatVal.nan` value
  (in `cosine_distance` a zero denominator forces a zero numerator, so the
  IEEE result there is `0.0 / 0.0 = NaN`).  Rounding and overflow of `f32`
  are not modelled.
* network calls (chat completion, embedding requests) are effectful
  collaborators; each is passed in as an explicit `Except`-valued argument
  (the value the `.await` would have produced).
* a Rust panic (`unwrap`, slice-index out of range, `len() - 1` underflow)
  is modelled by `Option.none` wrapped around the function's result type.
* `SystemTime` timestamps are modelled as `Nat`, and chrono's date rendering
  by an abstract injective rendering `formatTimestamp`.
* pixel buffers (`ImageBuffer<Rgba<u8>, Vec<u8>>`) are modelled as
  `List (List Nat)` (rows of pixel values); equality of buffers models
  pixel-identical equality of images.
-/

namespace Captain

/-! llm/mod.rs : message data model -/

inductive Role
  | system
  | user
  | assistant
deriving DecidableEq, Repr

structure ImageSource where
  source_type : String
  media_type : String
  data : String
deriving DecidableEq, Repr

inductive ContentBlock
  | text (text : String)
  | image (source : ImageSource)
deriving DecidableEq, Repr

inductive MessageContent
  | text (s : String)
  | multiContent (blocks : List ContentBlock)
deriving DecidableEq, Repr

structure Message where
  role : Role
  content : MessageContent
deriving DecidableEq, Repr

/-! screenshot.rs : screenshots and their LLM image messages -/

structure Screenshot where
  timestamp : Nat
  image_data : String
  image : List (List Nat)
deriving DecidableEq, Repr

/-- Models chrono's `format("%d/%m/%Y %T")` rendering of the timestamp as an
abstract injective rendering; the exact text is irrelevant to every claim. -/
def formatTimestamp (t : Nat) : String := toString t

/-- Screenshot::to_llm_message (screenshot.rs lines 22-44). -/
def Screenshot.to_llm_message (s : Screenshot) (suffix : Option String) : Message :=
  let suffixStr : String :=
    match suffix with
    | some suf => " " ++ suf
    | none => ""
  { role := Role.user
    content := MessageContent.multiContent
      [ ContentBlock.image
          { source_type := "base64", media_type := "image/jpeg", data := s.image_data }
      , ContentBlock.text
          ("[Screenshot taken at " ++ formatTimestamp s.timestamp ++ "]" ++ suffixStr) ] }

/-! search.rs : vector similarity engine -/

/-- Opaque model of `reqwest::Error` (a transport failure). -/
inductive ReqwestError
  | transport (msg : String)
deriving DecidableEq, Repr

/-- SearchError (search.rs lines 5-9). -/
inductive SearchError
  | embeddingError (e : ReqwestError)
deriving DecidableEq, Repr

instance {ε : Type u_1} {α : Type u_2} [DecidableEq ε] [DecidableEq α] :
    DecidableEq (Except ε α) := fun x y =>
  match x, y with
  | Except.error a, Except.error b => decidable_of_iff (a = b) (by simp)
  | Except.ok a, Except.ok b => decidable_of_iff (a = b) (by simp)
  | Except.error _, Except.ok _ => isFalse (fun h => Except.noConfusion h)
  | Except.ok _, Except.error _ => isFalse (fun h => Except.noConfusion h)

structure EmbeddedDocument (T : Type) where
  embedding : List ℚ
  document : T
deriving DecidableEq, Repr

/-- Model of an `f32` intermediate value: an exact rational, or NaN
(produced by `0.0 / 0.0`).  Infinities are unreachable in the analysed
expressions (a zero denominator in `cosine_distance` forces a zero
numerator), so they are not represented. -/
inductive FloatVal
  | q (x : ℚ)
  | nan
deriving DecidableEq, Repr

def FloatVal.isNan : FloatVal → Bool
  | .nan => true
  | .q _ => false

/-- Models `f32::partial_cmp`: `None` on NaN operands.  `Ord for
DenseEmbeddingSearchResult` (search.rs lines 29-33) unwraps this value, so a
`none` here models a panic at that unwrap. -/
def FloatVal.tryCompare : FloatVal → FloatVal → Option Ordering
  | .q a, .q b => some (compare a b)
  | _, _ => none

/-- Boolean order used to model the ascending order of
`BinaryHeap::into_sorted_vec`; only consulted on NaN-free inputs. -/
def FloatVal.le : FloatVal → FloatVal → Bool
  | .q a, .q b => decide (a ≤ b)
  | _, _ => false

/-- Rational square root, exact on squares of rationals (`Nat.sqrt` on
numerator and denominator); `f32::sqrt` rounding is not modelled and every
concrete input analysed below has an exact rational root. -/
def ratSqrt (x : ℚ) : ℚ := (Nat.sqrt x.num.toNat : ℚ) / (Nat.sqrt x.den : ℚ)

/-- cosine_distance (search.rs lines 64-69).  Despite its name it computes
`dot(a,b) / (‖a‖ ⬝ ‖b‖)`, i.e. the raw cosine similarity, not
`1 - cosine_similarity`.  There is no zero-norm check: a zero denominator
yields `0.0 / 0.0 = NaN`, modelled by `FloatVal.nan`. -/
def cosine_distance (a b : List ℚ) : FloatVal :=
  let dot_product : ℚ := (List.zipWith (· * ·) a b).sum
  let norm_a : ℚ := (a.map (fun x => x * x)).sum
  let norm_b : ℚ := (b.map (fun x => x * x)).sum
  let denom : ℚ := ratSqrt (norm_a * norm_b)
  if denom = 0 then FloatVal.nan else FloatVal.q (dot_product / denom)

structure DenseEmbeddingSearchResult (T : Type) where
  embedded_document : EmbeddedDocument T
  distance : FloatVal
deriving DecidableEq, Repr

def insertByDistance {T : Type} (x : DenseEmbeddingSearchResult T) :
    List (DenseEmbeddingSearchResult T) → List (DenseEmbeddingSearchResult T)
  | [] => [x]
  | y :: ys =>
    if FloatVal.le x.distance y.distance then x :: y :: ys
    else y :: insertByDistance x ys

/-- Ascending order by distance; models the order of
`BinaryHeap::into_sorted_vec()` (ties may differ, which the heap leaves
arbitrary anyway). -/
def sortByDistanceAsc {T : Type} :
    List (DenseEmbeddingSearchResult T) → List (DenseEmbeddingSearchResult T)
  | [] => []
  | x :: xs => insertByDistance x (sortByDistanceAsc xs)

/-- dense_embedding_search (search.rs lines 43-62).
`embedResult` is the value produced by the awaited `embedding(vec![query])`
network call.  The source `.unwrap()`s that result (line 48) and `.unwrap()`s
`partial_cmp` inside `Ord::cmp` (line 31), so:
* a transport failure panics (modelled `none`) instead of becoming
  `SearchError::EmbeddingError` — that variant is never constructed;
* a NaN distance among two or more heap elements makes a `BinaryHeap::push`
  comparison panic (the second push always compares against its parent),
  modelled `none`. -/
def dense_embedding_search {T : Type}
    (embedResult : Except ReqwestError (List (List ℚ)))
    (embedded_documents : List (EmbeddedDocument T)) (max_results : Nat) :
    Option (Except SearchError (List (DenseEmbeddingSearchResult T))) :=
  match embedResult with
  | .error _ => none
  | .ok vecs =>
    match vecs.head? with
    | none => none
    | some query_embedding =>
      let results : List (DenseEmbeddingSearchResult T) :=
        embedded_documents.map (fun d =>
          { embedded_document := d
            distance := cosine_distance query_embedding d.embedding })
      if 2 ≤ results.length ∧ (results.any fun r => r.distance.isNan) = true then none
      else some (Except.ok ((sortByDistanceAsc results).take max_results))

/-! image_analysis.rs : redundancy detector -/

/-- DiscardRedundantScreenshotError (image_analysis.rs lines 11-19); the
payloads of the wrapped foreign errors are rendered as strings. -/
inductive DiscardRedundantScreenshotError
  | llmError (e : String)
  | markdownCodeBlockMissingError (text : String)
  | jsonError (e : String)
deriving DecidableEq, Repr

def SIMILARITY_THRESHOLD_NUM_PIXELS : Nat := 1000000

/-- Models `ImageBuffer::get_pixel` on the row-list representation; the
out-of-range panic of the image crate is not reachable in any analysed input
(equal-dimension images), so out-of-range reads are totalised with 0. -/
def getPixel (img : List (List Nat)) (i j : Nat) : Nat :=
  ((img.get? i).bind (fun row => row.get? j)).getD 0

def imageWidth (img : List (List Nat)) : Nat := img.length

def imageHeight (img : List (List Nat)) : Nat := (img.head?.getD []).length

/-- Pixel-overlap count of detect_temporal_change_in_same_content
(image_analysis.rs lines 87-95): pixels at identical coordinates with
identical color, ranging over the first image's dimensions. -/
def num_exact_pixels (a b : List (List Nat)) : Nat :=
  ((List.range (imageWidth a)).map (fun i =>
    ((List.range (imageHeight a)).filter (fun j => getPixel a i j = getPixel b i j)).length)).sum

/-- detect_temporal_change_in_same_content (image_analysis.rs lines 80-96). -/
def detect_temporal_change_in_same_content (last_screenshot current_screenshot : Screenshot) : Bool :=
  if last_screenshot.image = current_screenshot.image then true
  else decide (SIMILARITY_THRESHOLD_NUM_PIXELS <
    num_exact_pixels last_screenshot.image current_screenshot.image)

/-- is_redundant_screenshot (image_analysis.rs lines 23-34).  `modelVerdict`
is the value produced by the awaited `should_discard_past_screenshot` model
round-trip (completion + fenced-block extraction + JSON parse), which is a
network collaborator. -/
def is_redundant_screenshot
    (modelVerdict : Except DiscardRedundantScreenshotError Bool)
    (last_screenshot current_screenshot : Screenshot) :
    Except DiscardRedundantScreenshotError Bool :=
  if last_screenshot.image = current_screenshot.image then Except.ok true
  else if detect_temporal_change_in_same_content last_screenshot current_screenshot then
    modelVerdict
  else Except.ok false

/-! trajectory.rs : event log and context assembler -/

structure ScreenshotEvent where
  text_description : Option String
  screenshot : Screenshot
  is_redundant : Bool
  text_embedding : Option (List ℚ)
deriving DecidableEq, Repr

inductive Event
  | message (m : Message)
  | screenshot (se : ScreenshotEvent)
deriving DecidableEq, Repr

inductive BuildMessagesError
  | retrievalError (e : SearchError)
deriving DecidableEq, Repr

def MAX_NUM_IMAGES_PER_LLM_CALL : Nat := 80

def MAX_NUM_EXPLICIT_RECENT_IMAGES_PER_LLM_CALL : Nat := 40

def MAX_NUM_RETRIEVED_IMAGES_PER_LLM_CALL : Nat :=
  MAX_NUM_IMAGES_PER_LLM_CALL - MAX_NUM_EXPLICIT_RECENT_IMAGES_PER_LLM_CALL

/-- Trajectory state: the backing event list plus the construction flag
(trajectory.rs lines 18-22); the `Arc<Mutex<_>>` is modelled by explicit
state passing. -/
structure Trajectory where
  events : List Event
  discard_redundant_screenshots : Bool
deriving DecidableEq, Repr

/-- Fresh screenshot event as pushed by add_screenshot
(trajectory.rs lines 92-97). -/
def newScreenshotEvent (s : Screenshot) : ScreenshotEvent :=
  { text_description := none
    screenshot := s
    is_redundant := false
    text_embedding := none }

/-- Dedup test of add_screenshot (trajectory.rs lines 76-89): the LAST event
of the log, only when that last event is a screenshot event, compared for
pixel-identical images; the is_redundant flag of that event is not consulted. -/
def lastScreenshotIdentical (events : List Event) (s : Screenshot) : Bool :=
  match events.getLast? with
  | some (Event.screenshot se) => decide (se.screenshot.image = s.image)
  | _ => false

/-- Result of a call to add_screenshot: the new backing list, whether an
event was appended, and which detached background tasks were spawned. -/
structure AddScreenshotResult where
  events : List Event
  appended : Bool
  spawned_redundancy_task : Bool
  spawned_enrichment_task : Bool
deriving DecidableEq, Repr

/-- add_screenshot (trajectory.rs lines 74-164), up to and including the task
spawns; the bodies of the spawned tasks are modelled separately
(`redundancy_task` below; the enrichment body mutates only derived fields and
no claim depends on its content).  The dedup early-return happens only when
`discard_redundant_screenshots` is set and only inspects the last event. -/
def Trajectory.add_screenshot (t : Trajectory) (s : Screenshot) : AddScreenshotResult :=
  if t.discard_redundant_screenshots && lastScreenshotIdentical t.events s then
    { events := t.events
      appended := false
      spawned_redundancy_task := false
      spawned_enrichment_task := false }
  else
    { events := t.events ++ [Event.screenshot (newScreenshotEvent s)]
      appended := true
      spawned_redundancy_task := t.discard_redundant_screenshots
      spawned_enrichment_task := true }

/-- Models the write `events[idx].is_redundant = true` guarded by
`if let Event::Screenshot(..)` (trajectory.rs lines 120-124). -/
def setRedundantAt (events : List Event) (idx : Nat) : List Event :=
  match events.get? idx with
  | some (Event.screenshot se) =>
    events.set idx (Event.screenshot { se with is_redundant := true })
  | _ => events

/-- Body of the redundancy background task (trajectory.rs lines 102-126).
`checkResult` is the value produced by the awaited
`is_redundant_screenshot(&last_screenshot, &screenshot)` call.  On an error
the task logs a warning and proceeds with `false` (fail-open).  NOTE the
faithful translation of line 121: on a discard verdict the source flags
`events[new_event_idx]` — the NEWLY appended event — not the previous one.
At `new_event_idx = 0` the source's `new_event_idx - 1` underflows `usize`
and `get` returns `None` in release builds; the task returns unchanged. -/
def redundancy_task
    (checkResult : Except DiscardRedundantScreenshotError Bool)
    (events : List Event) (new_event_idx : Nat) : List Event :=
  if new_event_idx = 0 then events
  else
    match events.get? (new_event_idx - 1) with
    | some (Event.screenshot _) =>
      let should_discard_previous_screenshot : Bool :=
        match checkResult with
        | .ok b => b
        | .error _ => false
      if should_discard_previous_screenshot then setRedundantAt events new_event_idx
      else events
    | _ => events

/-- Backward walk of build_messages (trajectory.rs lines 170-196) over the
reversed snapshot, carrying the enumeration index and the count of explicit
recent images; returns the reversed message accumulator and the overflow
retrieval index pool (indices into the REVERSED order, exactly as the source
collects them). -/
def walk (has_query : Bool) : List Event → Nat → Nat → List Message × List Nat
  | [], _, _ => ([], [])
  | Event.message m :: rest, idx, n =>
    let r := walk has_query rest (idx + 1) n
    (m :: r.1, r.2)
  | Event.screenshot se :: rest, idx, n =>
    if se.is_redundant then walk has_query rest (idx + 1) n
    else if n < MAX_NUM_EXPLICIT_RECENT_IMAGES_PER_LLM_CALL then
      let r := walk has_query rest (idx + 1) (n + 1)
      (se.screenshot.to_llm_message none :: r.1, r.2)
    else if has_query then
      let r := walk has_query rest (idx + 1) n
      (r.1, idx :: r.2)
    else walk has_query rest (idx + 1) n

/-- Retrieval-corpus construction of build_messages (trajectory.rs lines
197-206).  Faithful points: the collected indices are REVERSED-order indices
but the source indexes `events[idx]` in FORWARD order; a non-screenshot event
at such an index is silently skipped by the `if let`; a screenshot without a
completed embedding hits `.unwrap()` on `text_embedding` and panics
(modelled `none`); an out-of-range index would panic (modelled `none`,
unreachable since every collected idx is below the length). -/
def mkCorpus (events : List Event) : List Nat → Option (List (EmbeddedDocument Screenshot))
  | [] => some []
  | idx :: rest =>
    match events.get? idx with
    | some (Event.screenshot se) =>
      match se.text_embedding with
      | some emb =>
        (mkCorpus events rest).map
          (fun c => { embedding := emb, document := se.screenshot } :: c)
      | none => none
    | some (Event.message _) => mkCorpus events rest
    | none => none

/-- Models `messages_rev.insert(messages_rev.len() - 1, x)` (trajectory.rs
lines 220-223 and 227-228): inserts just before the last element; on an empty
list `len() - 1` underflows and `insert` panics (modelled `none`). -/
def insertSecondToLast (x : Message) : List Message → Option (List Message)
  | [] => none
  | [y] => some [x, y]
  | y :: z :: rest => (insertSecondToLast x (z :: rest)).map (fun l => y :: l)

def insertAllSecondToLast (msgs : List Message) (xs : List Message) : Option (List Message) :=
  xs.foldl (fun acc x => acc.bind (insertSecondToLast x)) (some msgs)

/-- build_messages (trajectory.rs lines 166-234).  `embedResult` is the value
the awaited `embedding(vec![query])` network call inside
`dense_embedding_search` would produce; it is only consulted when the corpus
exceeds the retrieval budget.  The outer `Option` models panics, the inner
`Except` the source's `Result`. -/
def Trajectory.build_messages
    (embedResult : Except ReqwestError (List (List ℚ)))
    (t : Trajectory) (query_for_retrieval : Option String) :
    Option (Except BuildMessagesError (List Message)) :=
  let w := walk query_for_retrieval.isSome t.events.reverse 0 0
  let messages_rev := w.1
  match mkCorpus t.events w.2 with
  | none => none
  | some retrieval_corpus =>
    match query_for_retrieval with
    | none => some (Except.ok messages_rev.reverse)
    | some _query =>
      if MAX_NUM_RETRIEVED_IMAGES_PER_LLM_CALL < retrieval_corpus.length then
        match dense_embedding_search embedResult retrieval_corpus
            MAX_NUM_RETRIEVED_IMAGES_PER_LLM_CALL with
        | none => none
        | some (Except.error e) => some (Except.error (BuildMessagesError.retrievalError e))
        | some (Except.ok top_k_relevant_images) =>
          match insertAllSecondToLast messages_rev
              (top_k_relevant_images.map
                (fun r => r.embedded_document.document.to_llm_message none)) with
          | none => none
          | some ms => some (Except.ok ms.reverse)
      else
        match insertAllSecondToLast messages_rev
            (retrieval_corpus.map (fun d => d.document.to_llm_message none)) with
        | none => none
        | some ms => some (Except.ok ms.reverse)

/-! Derived notions used by the theorems -/

/-- Small concrete screenshot family with pairwise distinct timestamps,
image payloads and pixel buffers. -/
def mkScreenshot (k : Nat) : Screenshot := ⟨k, toString k, [[k]]⟩

/-- Non-redundant screenshots of a snapshot, in log order. -/
def keptScreens (events : List Event) : List Screenshot :=
  events.filterMap (fun e =>
    match e with
    | Event.screenshot se => if se.is_redundant then none else some se.screenshot
    | Event.message _ => none)

/-- Recognises the shape of the image messages produced by
`Screenshot.to_llm_message`: multi-content whose first block is an image. -/
def isImageMessage (m : Message) : Bool :=
  match m.content with
  | MessageContent.multiContent (ContentBlock.image _ :: _) => true
  | _ => false

theorem isImageMessage_to_llm (s : Screenshot) (suffix : Option String) :
    isImageMessage (s.to_llm_message suffix) = true := rfl

/-- With no retrieval query the walk collects no retrieval candidates. -/
theorem walk_false_pool (rev : List Event) :
    ∀ (idx n : Nat), (walk false rev idx n).2 = [] := by
  induction rev with
  | nil => intro idx n; rfl
  | cons e rest ih =>
    intro idx n
    cases e with
    | message m => simpa [walk] using ih (idx + 1) n
    | screenshot se =>
      by_cases hr : se.is_redundant
      · simpa [walk, hr] using ih (idx + 1) n
      · by_cases hn : n < MAX_NUM_EXPLICIT_RECENT_IMAGES_PER_LLM_CALL
        · simpa [walk, hr, hn] using ih (idx + 1) (n + 1)
        · simpa [walk, hr, hn] using ih (idx + 1) n

/-- With no retrieval query, the image messages collected by the walk are
exactly the first `recency_budget - n` kept screenshots of the traversal
order, rendered with `to_llm_message`, provided the conversation messages of
the snapshot are not image-shaped. -/
theorem walk_false_images (rev : List Event) :
    ∀ (idx n : Nat), (∀ m, Event.message m ∈ rev → isImageMessage m = false) →
      (walk false rev idx n).1.filter isImageMessage =
        ((keptScreens rev).take (MAX_NUM_EXPLICIT_RECENT_IMAGES_PER_LLM_CALL - n)).map
          (fun sc => sc.to_llm_message none) := by
  induction rev with
  | nil => intro idx n _; simp [walk, keptScreens]
  | cons e rest ih =>
    intro idx n h
    have hrest : ∀ m, Event.message m ∈ rest → isImageMessage m = false :=
      fun m hm => h m (List.mem_cons_of_mem _ hm)
    cases e with
    | message m =>
      have hm : isImageMessage m = false := h m (List.mem_cons_self _ _)
      simp [walk, keptScreens, List.filter_cons, hm, ih (idx + 1) n hrest]
    | screenshot se =>
      by_cases hr : se.is_redundant
      · simpa [walk, keptScreens, hr] using ih (idx + 1) n hrest
      · by_cases hn : n < MAX_NUM_EXPLICIT_RECENT_IMAGES_PER_LLM_CALL
        · have hsub : MAX_NUM_EXPLICIT_RECENT_IMAGES_PER_LLM_CALL - n =
              (MAX_NUM_EXPLICIT_RECENT_IMAGES_PER_LLM_CALL - (n + 1)) + 1 := by omega
          simp [walk, keptScreens, hr, hn, List.filter_cons, hsub,
            List.take_succ_cons, isImageMessage_to_llm, ih (idx + 1) (n + 1) hrest]
        · have hsub : MAX_NUM_EXPLICIT_RECENT_IMAGES_PER_LLM_CALL - n = 0 := by omega
          simp [walk, keptScreens, hr, hn, hsub, ih (idx + 1) n hrest]

/-- Inserting before the last element of a nonempty list. -/
theorem insertSecondToLast_append (ms0 : List Message) (m x : Message) :
    insertSecondToLast x (ms0 ++ [m]) = some (ms0 ++ [x, m]) := by
  induction ms0 with
  | nil => rfl
  | cons a as ih =>
    rcases as with _ | ⟨b, bs⟩
    · simp [insertSecondToLast]
    · simpa [insertSecondToLast] using ih

/-- Sequentially inserting each element of `xs` before the last element of a
nonempty accumulator splices `xs`, in order, just before that last element. -/
theorem insertAllSecondToLast_append (xs : List Message) :
    ∀ (ms0 : List Message) (m : Message),
      insertAllSecondToLast (ms0 ++ [m]) xs = some (ms0 ++ xs ++ [m]) := by
  induction xs with
  | nil => intro ms0 m; simp [insertAllSecondToLast]
  | cons x xs ih =>
    intro ms0 m
    have step : insertAllSecondToLast (ms0 ++ [m]) (x :: xs) =
        insertAllSecondToLast ((ms0 ++ [x]) ++ [m]) xs := by
      simp [insertAllSecondToLast, List.foldl_cons, insertSecondToLast_append]
    rw [step, ih]
    simp

/-! Claim theorems -/

def c1Log : List Event := [Event.screenshot (newScreenshotEvent (mkScreenshot 0))]

def c1Events : List Event :=
  (Trajectory.add_screenshot ⟨c1Log, true⟩ (mkScreenshot 1)).events

/-- C1: the claim states that on a "discard previous" verdict the PREVIOUS
screenshot event is flagged redundant and the newly appended one stays
unflagged.  Counter-evaluation: a log holding one screenshot event, a second
distinct screenshot appended at index 1, and a discard verdict `Ok(true)`;
the source (trajectory.rs line 121) flags `events[new_event_idx]` — the NEW
event at index 1 — while the previous event at index 0 keeps
`is_redundant = false`.  This contradicts the claim (and the source's own
variable name `should_discard_previous_screenshot`): the code is the slip. -/
theorem c1_flag_set_on_new_event :
    (Trajectory.add_screenshot ⟨c1Log, true⟩ (mkScreenshot 1)).appended = true ∧
    c1Events.length = 2 ∧
    redundancy_task (Except.ok true) c1Events 1 =
      [Event.screenshot (newScreenshotEvent (mkScreenshot 0)),
       Event.screenshot { text_description := none, screenshot := mkScreenshot 1,
                          is_redundant := true, text_embedding := none }] := by
  decide

def c2MFirst : Message := ⟨Role.system, MessageContent.text "sys"⟩

def c2MLast : Message := ⟨Role.user, MessageContent.text "latest"⟩

/-- C2 snapshot: an opening conversation message, 41 kept screenshots
(timestamps 1..41), one redundant-but-embedded screenshot (timestamp 100),
and a final conversation message.  The walk sends reversed index 42 to the
overflow pool; the source then reads `events[42]` in FORWARD order, which is
the redundant screenshot, so that screenshot is what retrieval splices in. -/
def c2Snap : List Event :=
  [Event.message c2MFirst] ++
  ((List.range 41).map (fun k => Event.screenshot (newScreenshotEvent (mkScreenshot (k + 1))))) ++
  [Event.screenshot { newScreenshotEvent (mkScreenshot 100) with
      is_redundant := true, text_embedding := some [1] }] ++
  [Event.message c2MLast]

def c2Built : Option (List Message) :=
  match Trajectory.build_messages (Except.ok []) ⟨c2Snap, true⟩ (some "q") with
  | some (Except.ok l) => some l
  | _ => none

/-- C2 counterexample: on `c2Snap` the build returns 43 messages whose final
message (index 42) is the latest conversation message, but the one selected
screenshot's image message sits at index 1 — immediately AFTER the first
(oldest) message — while the slot immediately before the final message
(index 41) holds a different message.  The claim's placement ("immediately
before the final message") is therefore false on the code. -/
theorem c2_splice_counterexample :
    (mkCorpus c2Snap (walk true c2Snap.reverse 0 0).2).map (fun c => c.map (fun d => d.document))
      = some [mkScreenshot 100] ∧
    c2Built.map List.length = some 43 ∧
    c2Built.bind (fun l => l.get? 42) = some c2MLast ∧
    c2Built.bind (fun l => l.get? 41) = some ((mkScreenshot 41).to_llm_message none) ∧
    c2Built.bind (fun l => l.get? 1) = some ((mkScreenshot 100).to_llm_message none) ∧
    (mkScreenshot 41).to_llm_message none ≠ (mkScreenshot 100).to_llm_message none := by
  decide

/-- C2 amended: when the overflow corpus fits within the retrieval budget,
each selected screenshot's image message is spliced immediately AFTER the
first (oldest) message of the returned list — the selected messages follow
the first message in reverse selection order — and all other messages keep
their chronological order unchanged. -/
theorem c2_splice_after_first
    (embedResult : Except ReqwestError (List (List ℚ)))
    (t : Trajectory) (q : String)
    (ms0 : List Message) (mfirst : Message) (corpus : List (EmbeddedDocument Screenshot))
    (hw : (walk true t.events.reverse 0 0).1 = ms0 ++ [mfirst])
    (hc : mkCorpus t.events (walk true t.events.reverse 0 0).2 = some corpus)
    (hlen : corpus.length ≤ MAX_NUM_RETRIEVED_IMAGES_PER_LLM_CALL) :
    t.build_messages embedResult (some q) =
      some (Except.ok (mfirst ::
        ((corpus.map (fun d => d.document.to_llm_message none)).reverse ++ ms0.reverse))) := by
  have hif : ¬ MAX_NUM_RETRIEVED_IMAGES_PER_LLM_CALL < corpus.length := by omega
  simp only [Trajectory.build_messages, Option.isSome]
  rw [hc]
  simp only [hif, if_false]
  rw [hw, insertAllSecondToLast_append]
  simp [List.reverse_append]

def c2Ms0 : List Message := ((walk true c2Snap.reverse 0 0).1).dropLast

def c2Corpus : List (EmbeddedDocument Screenshot) := [⟨[1], mkScreenshot 100⟩]

/-- C2 witness: the amended splice-position theorem applied to the concrete
snapshot `c2Snap`. -/
theorem c2_splice_after_first_witness :
    ((walk true c2Snap.reverse 0 0).1 = c2Ms0 ++ [c2MFirst] ∧
     mkCorpus c2Snap (walk true c2Snap.reverse 0 0).2 = some c2Corpus ∧
     c2Corpus.length ≤ MAX_NUM_RETRIEVED_IMAGES_PER_LLM_CALL) ∧
    Trajectory.build_messages (Except.ok []) ⟨c2Snap, true⟩ (some "q") =
      some (Except.ok (c2MFirst ::
        ((c2Corpus.map (fun d => d.document.to_llm_message none)).reverse ++ c2Ms0.reverse))) :=
  ⟨⟨by decide, by decide, by decide⟩,
   c2_splice_after_first (Except.ok []) ⟨c2Snap, true⟩ "q" c2Ms0 c2MFirst c2Corpus
     (by decide) (by decide) (by decide)⟩

/-- C3: the claim states that the most similar candidate (largest cosine
similarity) comes first.  Counter-evaluation: for query embedding `[1,0]`
and candidates `[1,0]` (cosine similarity 1) and `[0,1]` (cosine similarity
0) with `k = 1`, the search returns the ORTHOGONAL candidate: the source's
`cosine_distance` returns raw cosine similarity (not `1 - cos`) and
`into_sorted_vec` + `truncate` keep the `k` SMALLEST keys, i.e. the least
similar candidates, ascending.  The code slip contradicts the source's own
naming (`cosine_distance`, `top_k_relevant_images`). -/
theorem c3_least_similar_first :
    cosine_distance [1, 0] [1, 0] = FloatVal.q 1 ∧
    cosine_distance [1, 0] [0, 1] = FloatVal.q 0 ∧
    dense_embedding_search (T := Screenshot) (Except.ok [[1, 0]])
        [⟨[1, 0], mkScreenshot 1⟩, ⟨[0, 1], mkScreenshot 2⟩] 1 =
      some (Except.ok [⟨⟨[0, 1], mkScreenshot 2⟩, FloatVal.q 0⟩]) := by
  have h1 : cosine_distance [1, 0] [1, 0] = FloatVal.q 1 := by
    simp [cosine_distance, ratSqrt]
  have h2 : cosine_distance [1, 0] [0, 1] = FloatVal.q 0 := by
    simp [cosine_distance, ratSqrt]
  have hle : ¬ ((1 : ℚ) ≤ 0) := by norm_num
  refine ⟨h1, h2, ?_⟩
  simp [dense_embedding_search, h1, h2, FloatVal.isNan, sortByDistanceAsc,
    insertByDistance, FloatVal.le, hle]

def c4Snap : List Event :=
  List.replicate 41 (Event.screenshot (newScreenshotEvent (mkScreenshot 0)))

/-- C4: the claim states that an overflow screenshot without a completed
embedding is silently dropped and build never panics.  Counter-evaluation:
41 kept screenshots with no embeddings and a retrieval query; reversed index
40 lands in the overflow pool regardless of the embedding, and the corpus
construction `.unwrap()`s the absent `text_embedding` of `events[40]` —
a panic (modelled `none`) instead of a silent drop. -/
theorem c4_missing_embedding_panics :
    (walk true c4Snap.reverse 0 0).2 = [40] ∧
    mkCorpus c4Snap [40] = none ∧
    Trajectory.build_messages (Except.ok []) ⟨c4Snap, true⟩ (some "q") = none := by
  decide

def c5LogA : List Event := [Event.screenshot (newScreenshotEvent (mkScreenshot 0))]

def c5LogB : List Event :=
  [Event.screenshot (newScreenshotEvent (mkScreenshot 0)),
   Event.message ⟨Role.user, MessageContent.text "hi"⟩]

/-- C5 counterexample: in both scenarios the last KEPT screenshot event holds
an image pixel-identical to the screenshot being appended, yet add_screenshot
appends anyway: (a) with redundancy discarding disabled the dedup check is
skipped entirely; (b) with it enabled the source only inspects the LAST
event, so an intervening conversation message defeats the dedup. -/
theorem c5_dedup_counterexample :
    ((Trajectory.add_screenshot ⟨c5LogA, false⟩ (mkScreenshot 0)).appended = true ∧
     (Trajectory.add_screenshot ⟨c5LogA, false⟩ (mkScreenshot 0)).events.length = 2) ∧
    ((Trajectory.add_screenshot ⟨c5LogB, true⟩ (mkScreenshot 0)).appended = true ∧
     (Trajectory.add_screenshot ⟨c5LogB, true⟩ (mkScreenshot 0)).events.length = 3) := by
  decide

/-- C5 amended: with redundant-screenshot discarding enabled, whenever the
LAST EVENT of the log is a screenshot event holding an image pixel-identical
to the screenshot being appended, add_screenshot returns without appending:
the log is unchanged and no background task is scheduled. -/
theorem c5_dedup_last_event (events : List Event) (s : Screenshot)
    (h : lastScreenshotIdentical events s = true) :
    Trajectory.add_screenshot ⟨events, true⟩ s =
      { events := events, appended := false,
        spawned_redundancy_task := false, spawned_enrichment_task := false } := by
  simp [Trajectory.add_screenshot, h]

/-- C5 witness: the amended dedup theorem at a concrete one-screenshot log. -/
theorem c5_dedup_last_event_witness :
    lastScreenshotIdentical c5LogA (mkScreenshot 0) = true ∧
    Trajectory.add_screenshot ⟨c5LogA, true⟩ (mkScreenshot 0) =
      { events := c5LogA, appended := false,
        spawned_redundancy_task := false, spawned_enrichment_task := false } :=
  ⟨by decide, c5_dedup_last_event c5LogA (mkScreenshot 0) (by decide)⟩

/-- C6: with more than `recency_budget = 40` non-redundant screenshots and no
retrieval query, build succeeds and its image messages are exactly the 40
most recent non-redundant screenshots, in chronological order.  The
hypothesis on conversation messages only rules out a Message event that is
itself shaped like a screenshot image message, so that "image message" is
well defined. -/
theorem c6_recency_budget
    (embedResult : Except ReqwestError (List (List ℚ))) (t : Trajectory)
    (hmsg : ∀ m, Event.message m ∈ t.events → isImageMessage m = false)
    (hlen : MAX_NUM_EXPLICIT_RECENT_IMAGES_PER_LLM_CALL < (keptScreens t.events).length) :
    ∃ msgs, t.build_messages embedResult none = some (Except.ok msgs) ∧
      msgs.filter isImageMessage =
        (((keptScreens t.events).reverse.take
            MAX_NUM_EXPLICIT_RECENT_IMAGES_PER_LLM_CALL).reverse).map
          (fun sc => sc.to_llm_message none) ∧
      (msgs.filter isImageMessage).length = MAX_NUM_EXPLICIT_RECENT_IMAGES_PER_LLM_CALL := by
  refine ⟨(walk false t.events.reverse 0 0).1.reverse, ?_, ?_, ?_⟩
  · simp only [Trajectory.build_messages, Option.isSome]
    rw [walk_false_pool]
    rfl
  · have hrev : ∀ m, Event.message m ∈ t.events.reverse → isImageMessage m = false :=
      fun m hm => hmsg m (List.mem_reverse.mp hm)
    have h := walk_false_images t.events.reverse 0 0 hrev
    have hkept : keptScreens t.events.reverse = (keptScreens t.events).reverse :=
      List.filterMap_reverse _ _
    rw [List.filter_reverse, h, hkept, Nat.sub_zero, List.map_reverse]
  · have hrev : ∀ m, Event.message m ∈ t.events.reverse → isImageMessage m = false :=
      fun m hm => hmsg m (List.mem_reverse.mp hm)
    have h := walk_false_images t.events.reverse 0 0 hrev
    have hkept : keptScreens t.events.reverse = (keptScreens t.events).reverse :=
      List.filterMap_reverse _ _
    rw [List.filter_reverse, h, hkept, Nat.sub_zero]
    simp [List.length_take]
    omega

def c6Snap : List Event :=
  List.replicate 41 (Event.screenshot (newScreenshotEvent (mkScreenshot 0)))

/-- C6 witness: the budget theorem at a concrete 41-screenshot snapshot. -/
theorem c6_recency_budget_witness :
    (MAX_NUM_EXPLICIT_RECENT_IMAGES_PER_LLM_CALL < (keptScreens c6Snap).length) ∧
    (∃ msgs, Trajectory.build_messages (Except.ok []) ⟨c6Snap, true⟩ none =
        some (Except.ok msgs) ∧
      msgs.filter isImageMessage =
        (((keptScreens c6Snap).reverse.take
            MAX_NUM_EXPLICIT_RECENT_IMAGES_PER_LLM_CALL).reverse).map
          (fun sc => sc.to_llm_message none) ∧
      (msgs.filter isImageMessage).length = MAX_NUM_EXPLICIT_RECENT_IMAGES_PER_LLM_CALL) :=
  ⟨by decide,
   c6_recency_budget (Except.ok []) ⟨c6Snap, true⟩
     (fun m hm => Event.noConfusion (List.eq_of_mem_replicate hm))
     (by decide)⟩

def c7Snap : List Event :=
  List.replicate 81
    (Event.screenshot { newScreenshotEvent (mkScreenshot 0) with text_embedding := some [1] })

/-- C7: the claim states a retrieval-engine failure (including a transport
failure while embedding the query) reaches build's caller as a typed error,
never as a panic.  Counter-evaluation: a snapshot whose overflow corpus
exceeds the retrieval budget (81 embedded screenshots) with a failing
embedding request; `dense_embedding_search` `.unwrap()`s the embedding result
(search.rs line 48), so the failure is a panic (modelled `none`) — and, as
the second conjunct shows, the function can never produce its
`SearchError::EmbeddingError` value at all, so build's error-propagation arm
(trajectory.rs line 217) is dead code. -/
theorem c7_embed_failure_panics :
    Trajectory.build_messages (Except.error (ReqwestError.transport "transport failure"))
        ⟨c7Snap, true⟩ (some "q") = none ∧
    (∀ (er : ReqwestError) (corpus : List (EmbeddedDocument Screenshot)) (k : Nat),
      dense_embedding_search (Except.error er) corpus k = none) :=
  ⟨by decide, fun _ _ _ => rfl⟩

/-- C8: the claim states the engine never divides by a zero-norm vector
(defensive check, error/skip) and top-k never panics on the comparisons.
Counter-evaluation: for a zero-norm candidate `[0,0]` the source computes
`0.0 / 0.0 = NaN` with no check; `partial_cmp` on that NaN is `None`, which
`Ord::cmp` (search.rs line 31) unwraps, so pushing the second element onto
the heap panics (modelled `none`). -/
theorem c8_zero_norm_nan :
    cosine_distance [1, 0] [0, 0] = FloatVal.nan ∧
    FloatVal.tryCompare FloatVal.nan (FloatVal.q (3 / 5)) = none ∧
    dense_embedding_search (T := Screenshot) (Except.ok [[1, 0]])
        [⟨[0, 0], mkScreenshot 1⟩, ⟨[3, 4], mkScreenshot 2⟩] 2 = none := by
  have h1 : cosine_distance [1, 0] [0, 0] = FloatVal.nan := by
    simp [cosine_distance, ratSqrt]
  have h2 : cosine_distance [1, 0] [3, 4] = FloatVal.q (3 / 5) := by
    simp [cosine_distance, ratSqrt]
    norm_num
    rw [show Int.toNat 25 = 25 from rfl, show Nat.sqrt 25 = 5 by norm_num]
    norm_num
  refine ⟨h1, rfl, ?_⟩
  simp [dense_embedding_search, h1, h2, FloatVal.isNan]

/-- C9: a failing redundancy check (transport, missing fenced block, or JSON
parse failure, i.e. any `DiscardRedundantScreenshotError`) is treated as
"not redundant": the background task leaves the event list completely
unchanged, for every log and every index.  No error can reach the caller of
add_screenshot: the task is detached and `AddScreenshotResult` carries no
error component. -/
theorem c9_redundancy_failure_fail_open
    (events : List Event) (idx : Nat) (err : DiscardRedundantScreenshotError) :
    redundancy_task (Except.error err) events idx = events := by
  unfold redundancy_task
  split
  · rfl
  · split <;> rfl

/-! Lock-discipline model for C10.  The two background task bodies are
abstracted to their program-order traces of lock and suspension operations. -/

inductive TaskAction
  | lockAcquire
  | fieldRead
  | fieldWrite
  | awaitNetwork
  | lockRelease
deriving DecidableEq, Repr

/-- Trace of the redundancy task (trajectory.rs lines 102-126): a temporary
guard around the read of the previous event, the awaited
`is_redundant_screenshot` model call with no guard held, then a guard around
the single flag write. -/
def redundancy_task_actions : List TaskAction :=
  [TaskAction.lockAcquire, TaskAction.fieldRead, TaskAction.lockRelease,
   TaskAction.awaitNetwork,
   TaskAction.lockAcquire, TaskAction.fieldWrite, TaskAction.lockRelease]

/-- Trace of the enrichment task (trajectory.rs lines 135-163): the awaited
description request runs unguarded, but the guard acquired at line 140 stays
in scope across the description write, the AWAITED `embedding(...)` call at
line 144, and the embedding write, until the end of the match arm. -/
def enrichment_task_actions : List TaskAction :=
  [TaskAction.awaitNetwork,
   TaskAction.lockAcquire, TaskAction.fieldWrite,
   TaskAction.awaitNetwork,
   TaskAction.fieldWrite, TaskAction.lockRelease]

/-- Number of awaited network calls performed while the log's lock is held. -/
def awaitsWhileLocked : List TaskAction → Nat → Nat
  | [], _ => 0
  | TaskAction.lockAcquire :: rest, depth => awaitsWhileLocked rest (depth + 1)
  | TaskAction.lockRelease :: rest, depth => awaitsWhileLocked rest (depth - 1)
  | TaskAction.awaitNetwork :: rest, depth =>
    (if 0 < depth then 1 else 0) + awaitsWhileLocked rest depth
  | _ :: rest, depth => awaitsWhileLocked rest depth

def holdsLockAcrossAwait (l : List TaskAction) : Bool :=
  decide (0 < awaitsWhileLocked l 0)

/-- C10 counterexample: the enrichment task DOES hold the log's lock across
an awaited network call — the guard taken at trajectory.rs line 140 is still
live at the awaited `embedding(...)` request on line 144 — contradicting the
claim that the lock is never held across an awaited call and only for a
single field write. -/
theorem c10_lock_across_await_counterexample :
    holdsLockAcrossAwait enrichment_task_actions = true := by decide

/-- C10 amended: the redundancy task never holds the lock across an awaited
network call (its two lock sections are single in-memory operations), while
the enrichment task acquires the lock once after its description request and
holds it across exactly one awaited network call — the embedding request —
covering both of its field writes. -/
theorem c10_lock_discipline :
    holdsLockAcrossAwait redundancy_task_actions = false ∧
    awaitsWhileLocked enrichment_task_actions 0 = 1 := by decide

end Captain
